import Mathlib

/-!
Shallow embedding of the mcp-android-ssh SSH client core
(src/ssh/client.rs, src/tools.rs, src/config.rs, src/error.rs).

Stateful and IO-bound parts (the network transport, the remote
authentication verdicts, the channel event stream, wall-clock time) are
modelled as explicit inputs ("worlds"); the control flow of each Rust
function is transcribed directly.  Byte buffers are kept as lists of
bytes; the lossy UTF-8 decoding done by the standard library at the very
end of exec_command_inner is not modelled (no claim depends on it).
-/

namespace McpAndroidSsh

/-- Error type, mirroring the SshMcpError enum of src/error.rs. -/
inductive SshMcpError where
  | sshConnection (msg : String)
  | commandExecution (msg : String)
  | authentication (msg : String)
  | config (msg : String)
  | timeout (msg : String)
  | io (msg : String)
  | other (msg : String)
deriving DecidableEq, Repr

/-- Display impl of SshMcpError, mirroring the thiserror error attributes. -/
def SshMcpError.display : SshMcpError → String
  | .sshConnection m => "SSH connection failed: " ++ m
  | .commandExecution m => "Command execution failed: " ++ m
  | .authentication m => "Authentication failed: " ++ m
  | .config m => "Configuration error: " ++ m
  | .timeout m => "Timeout error: " ++ m
  | .io m => "IO error: " ++ m
  | .other m => m

/-- Connection descriptor, mirroring Config of src/config.rs (port is a u16). -/
structure Config where
  host : String
  port : Nat
  user : String
  password : Option String
  key_path : Option String
deriving DecidableEq, Repr

/-- Model of Config.expanded_key_path: present exactly when key_path is present
(the tilde expansion itself is an external library call on an opaque path). -/
def Config.expanded_key_path (c : Config) : Option String :=
  c.key_path

/-- MAX_RETRIES constant of src/ssh/client.rs. -/
def MAX_RETRIES : Nat := 3

/-- RETRY_DELAY constant of src/ssh/client.rs, in seconds. -/
def RETRY_DELAY : Nat := 2

/-- Model of a russh client handle: all the code observes of it is is_closed(). -/
structure Session where
  closed : Bool
deriving DecidableEq, Repr

/-- Outcome of one try_key_auth call, decided by the outside world:
the key file read, the key parse, and the remote verdict. -/
inductive KeyAuthOutcome where
  | ioError (msg : String)
  | decodeError (msg : String)
  | sshError (msg : String)
  | accepted
  | rejected
deriving DecidableEq, Repr

/-- Outcome of one try_password_auth call, decided by the outside world. -/
inductive PwAuthOutcome where
  | sshError (msg : String)
  | accepted
  | rejected
deriving DecidableEq, Repr

/-- The outside world of one try_connect attempt: whether the transport
opens, and how each authentication method would fare. -/
structure AttemptWorld where
  transport : Except String Unit
  key_auth : KeyAuthOutcome
  pw_auth : PwAuthOutcome
deriving Repr

/-- Which operations one try_connect attempt performed. -/
structure AttemptTrace where
  opened_transport : Bool
  key_tried : Bool
  pw_tried : Bool
deriving DecidableEq, Repr

/-- Model of try_key_auth (src/ssh/client.rs lines 184-200): a file read
error propagates as Io, a decode error and a transport-level auth error map
to Authentication, otherwise the remote verdict gives Ok true / Ok false. -/
def tryKeyAuth (w : AttemptWorld) : Except SshMcpError Bool :=
  match w.key_auth with
  | .ioError m => .error (.io m)
  | .decodeError m => .error (.authentication ("Failed to load key: " ++ m))
  | .sshError m => .error (.authentication ("Key auth failed: " ++ m))
  | .accepted => .ok true
  | .rejected => .ok false

/-- Model of try_password_auth (src/ssh/client.rs lines 202-218). -/
def tryPasswordAuth (w : AttemptWorld) : Except SshMcpError Bool :=
  match w.pw_auth with
  | .sshError m => .error (.authentication ("Password auth failed: " ++ m))
  | .accepted => .ok true
  | .rejected => .ok false

/-- Transport-open failure message of try_connect (lines 74-92). -/
def connectFailMsg (c : Config) (e : String) : String :=
  "Cannot connect to Android device\n\nError: Connection failed to "
    ++ c.host ++ ":" ++ toString c.port ++ "\nDetails: " ++ e
    ++ "\n\nTroubleshooting:\n- Is sshd running in Termux? Run: sshd\n- Is the IP address correct? Check: ifconfig wlan0\n- Are both devices on the same network?\n- Try connecting manually: ssh -p "
    ++ toString c.port ++ " " ++ c.user ++ "@" ++ c.host
    ++ "\n\nSetup guide: https://github.com/vaknin/mcp-android-ssh#setup"

/-- Shared head of the two key-auth terminal failure messages (lines 106-122
and 130-147): everything before the words naming key authentication. -/
def keyAuthMsgPre (c : Config) : String :=
  "SSH Authentication Failed\n\nCould not authenticate with "
    ++ c.host ++ ":" ++ toString c.port ++ "\n\n"

/-- Shared tail of the two key-auth terminal failure messages. -/
def keyAuthMsgPost (c : Config) (kp : String) : String :=
  "\n\nCheck:\n- Key file exists: " ++ kp
    ++ "\n- Key was copied to Android: ssh-copy-id -p " ++ toString c.port
    ++ " -i " ++ kp ++ ".pub " ++ c.user ++ "@" ++ c.host
    ++ "\n- Or add password to config if using password auth\n\nAuthentication guide: https://github.com/vaknin/mcp-android-ssh#setup-ssh-key-authentication"

/-- Terminal failure message when key auth was rejected and no password is
configured (lines 106-122). -/
def keyFailNoPwMsg (c : Config) (kp : String) : String :=
  keyAuthMsgPre c ++ "Key authentication"
    ++ (" failed and no password provided." ++ keyAuthMsgPost c kp)

/-- Terminal failure message when key auth errored and no password is
configured (lines 130-147); e is the displayed inner error. -/
def keyErrNoPwMsg (c : Config) (e : String) (kp : String) : String :=
  keyAuthMsgPre c ++ "Key authentication"
    ++ (" error: " ++ e ++ keyAuthMsgPost c kp)

/-- Generic auth failure message when the tried method returned false
(lines 162-178). -/
def authFailedMsg (c : Config) : String :=
  "SSH Authentication Failed\n\nCould not authenticate with "
    ++ c.host ++ ":" ++ toString c.port
    ++ "\n\nCheck:\n- Password is correct (if using password auth)\n- Key was copied to Android: ssh-copy-id -p "
    ++ toString c.port ++ " -i KEY_FILE.pub " ++ c.user ++ "@" ++ c.host
    ++ "\n- Try connecting manually: ssh -p " ++ toString c.port ++ " "
    ++ c.user ++ "@" ++ c.host
    ++ "\n\nAuthentication guide: https://github.com/vaknin/mcp-android-ssh#setup-ssh-key-authentication"

/-- Failure message when neither credential is configured (lines 154-158). -/
def noAuthMethodMsg : String :=
  "No authentication method available\n\nMust provide either \x27password\x27 or \x27key_path\x27 in config.\n\nSetup guide: https://github.com/vaknin/mcp-android-ssh#setup"

/-- Model of try_connect (src/ssh/client.rs lines 60-182): open the
transport, then try key auth first when a key path is configured, falling
back to password auth; alongside the result it reports which steps ran. -/
def tryConnect (c : Config) (w : AttemptWorld) :
    Except SshMcpError Session × AttemptTrace :=
  match w.transport with
  | .error e => (.error (.sshConnection (connectFailMsg c e)), ⟨false, false, false⟩)
  | .ok _ =>
    match c.expanded_key_path with
    | some kp =>
      match tryKeyAuth w with
      | .ok true => (.ok ⟨false⟩, ⟨true, true, false⟩)
      | .ok false =>
        match c.password with
        | some _ =>
          match tryPasswordAuth w with
          | .ok success =>
            if success then (.ok ⟨false⟩, ⟨true, true, true⟩)
            else (.error (.authentication (authFailedMsg c)), ⟨true, true, true⟩)
          | .error e => (.error e, ⟨true, true, true⟩)
        | none =>
          (.error (.authentication (keyFailNoPwMsg c kp)), ⟨true, true, false⟩)
      | .error e =>
        match c.password with
        | some _ =>
          match tryPasswordAuth w with
          | .ok success =>
            if success then (.ok ⟨false⟩, ⟨true, true, true⟩)
            else (.error (.authentication (authFailedMsg c)), ⟨true, true, true⟩)
          | .error e2 => (.error e2, ⟨true, true, true⟩)
        | none =>
          (.error (.authentication (keyErrNoPwMsg c e.display kp)), ⟨true, true, false⟩)
    | none =>
      match c.password with
      | some _ =>
        match tryPasswordAuth w with
        | .ok success =>
          if success then (.ok ⟨false⟩, ⟨true, false, true⟩)
          else (.error (.authentication (authFailedMsg c)), ⟨true, false, true⟩)
        | .error e => (.error e, ⟨true, false, true⟩)
      | none =>
        (.error (.authentication noAuthMethodMsg), ⟨true, false, false⟩)

/-- Retry loop body of connect (src/ssh/client.rs lines 28-53): iterate over
the remaining attempt numbers, keeping the last error; on success stop at
once; after a failure sleep RETRY_DELAY only when attempt < MAX_RETRIES.
Returns (result, number of attempts made, list of sleeps performed). -/
def connectGo (c : Config) (w : Nat → AttemptWorld) :
    List Nat → Option SshMcpError → Except SshMcpError Session × Nat × List Nat
  | [], lastError =>
      (.error (lastError.getD
        (.sshConnection "Failed to connect after retries")), 0, [])
  | attempt :: rest, _lastError =>
      match (tryConnect c (w attempt)).1 with
      | .ok s => (.ok s, 1, [])
      | .error e =>
          let r := connectGo c w rest (some e)
          if attempt < MAX_RETRIES then (r.1, r.2.1 + 1, RETRY_DELAY :: r.2.2)
          else (r.1, r.2.1 + 1, r.2.2)

/-- Model of connect (src/ssh/client.rs lines 25-58): the loop for attempt
in 1..=MAX_RETRIES, starting with no recorded error. -/
def connect (c : Config) (w : Nat → AttemptWorld) :
    Except SshMcpError Session × Nat × List Nat :=
  connectGo c w (List.range' 1 MAX_RETRIES) none

/-- Model of ensure_connected (src/ssh/client.rs lines 220-234): keep an
open session as is; on a closed session drop the handle and reconnect; with
no session connect.  Returns (result, session slot afterwards, number of
connect() calls made). -/
def ensureConnected (session : Option Session) (c : Config)
    (w : Nat → AttemptWorld) :
    Except SshMcpError Unit × Option Session × Nat :=
  match session with
  | some s =>
      if s.closed then
        match (connect c w).1 with
        | .ok s2 => (.ok (), some s2, 1)
        | .error e => (.error e, none, 1)
      else (.ok (), some s, 0)
  | none =>
      match (connect c w).1 with
      | .ok s2 => (.ok (), some s2, 1)
      | .error e => (.error e, none, 1)

/-- Channel events, mirroring the russh ChannelMsg variants the drain loop
of exec_command_inner matches on; data payloads are byte lists. -/
inductive ChannelMsg where
  | data (d : List Nat)
  | extendedData (d : List Nat) (ext : Nat)
  | exitStatus (n : Nat)
  | eof
  | otherMsg
deriving DecidableEq, Repr

/-- Reinterpretation of a u32 exit_status as an i32 (the exit_status as i32
cast at src/ssh/client.rs line 292): value mod two to the 32, taken into
the signed range. -/
def u32AsI32 (n : Nat) : Int :=
  if n % 2 ^ 32 < 2 ^ 31 then ((n % 2 ^ 32 : Nat) : Int)
  else ((n % 2 ^ 32 : Nat) : Int) - 2 ^ 32

/-- Mutable state of the drain loop of exec_command_inner (lines 274-307). -/
structure DrainAcc where
  stdout : List Nat
  stderr : List Nat
  exit_code : Option Int
  got_eof : Bool
deriving DecidableEq, Repr

/-- The drain loop of exec_command_inner (lines 280-307), transcribed: data
extends stdout, extended data with ext = 1 extends stderr, an exit status
records the cast code and breaks when eof was already seen, eof records the
flag and breaks when an exit code was already seen; all other messages are
skipped; the loop also ends when the event list is exhausted.  Returns the
final state and the unconsumed events remaining after a break. -/
def drainLoop : List ChannelMsg → DrainAcc → DrainAcc × List ChannelMsg
  | [], acc => (acc, [])
  | msg :: rest, acc =>
    match msg with
    | .data d => drainLoop rest { acc with stdout := acc.stdout ++ d }
    | .extendedData d ext =>
        if ext = 1 then drainLoop rest { acc with stderr := acc.stderr ++ d }
        else drainLoop rest acc
    | .exitStatus n =>
        let acc2 := { acc with exit_code := some (u32AsI32 n) }
        if acc2.got_eof then (acc2, rest) else drainLoop rest acc2
    | .eof =>
        let acc2 := { acc with got_eof := true }
        if acc2.exit_code.isSome then (acc2, rest) else drainLoop rest acc2
    | .otherMsg => drainLoop rest acc

/-- Result of one command, mirroring CommandResult (lines 331-336); the two
streams are kept as raw byte lists (the Rust code lossy-decodes them to
String at construction) and exit_code is the i32. -/
structure CommandResult where
  stdout : List Nat
  stderr : List Nat
  exit_code : Int
deriving DecidableEq, Repr

/-- The outside world of one exec_command_inner call: whether the channel
opens, whether the exec request goes through, and the channel events. -/
structure ExecWorld where
  channel_open : Except String Unit
  exec_req : Except String Unit
  events : List ChannelMsg
deriving Repr

/-- Model of exec_command_inner (src/ssh/client.rs lines 259-318): open a
channel, send the exec request, drain the channel, and default the exit
code to 0 when none was ever received. -/
def execCommandInner (w : ExecWorld) : Except SshMcpError CommandResult :=
  match w.channel_open with
  | .error e => .error (.commandExecution ("Failed to open channel: " ++ e))
  | .ok _ =>
    match w.exec_req with
    | .error e => .error (.commandExecution ("Failed to exec command: " ++ e))
    | .ok _ =>
      let st := (drainLoop w.events ⟨[], [], none, false⟩).1
      .ok ⟨st.stdout, st.stderr, st.exit_code.getD 0⟩

/-- Timeout error message of execute_command (line 253). -/
def timeoutMsg (timeout_secs : Nat) : String :=
  "Command timed out after " ++ toString timeout_secs ++ " seconds"

/-- Model of execute_command (src/ssh/client.rs lines 236-257): ensure a
connection, then run exec_command_inner under the tokio timeout.  Real time
is modelled by drain_time, the seconds the inner drain would need: the
deadline fires exactly when drain_time exceeds timeout_secs. -/
def executeCommand (session : Option Session) (c : Config)
    (w : Nat → AttemptWorld) (ew : ExecWorld)
    (drain_time timeout_secs : Nat) : Except SshMcpError CommandResult :=
  match ensureConnected session c w with
  | (.error e, _, _) => .error e
  | (.ok _, sess2, _) =>
    match sess2 with
    | none => .error (.sshConnection "No active session")
    | some _ =>
      if timeout_secs < drain_time then .error (.timeout (timeoutMsg timeout_secs))
      else execCommandInner ew

/-- The READ_ONLY_COMMANDS whitelist of src/tools.rs (81 entries). -/
def READ_ONLY_COMMANDS : List String :=
  ["ls", "cat", "head", "tail", "less", "more", "grep", "rg", "find", "fd",
   "tree", "bat", "eza", "exa", "locate",
   "cd", "pwd", "readlink", "realpath", "basename", "dirname",
   "whoami", "id", "groups", "which", "whereis", "type", "hostname", "uname",
   "date", "uptime",
   "echo", "printf",
   "ps", "top", "htop", "btop", "lsof",
   "df", "du", "lsblk", "blkid", "stat", "file",
   "free", "vmstat", "iostat", "iotop", "lsmem", "lshw", "lscpu",
   "netstat", "ss", "ping", "traceroute", "nslookup", "dig", "host",
   "wc", "sort", "uniq", "cut", "paste", "tr", "column",
   "diff", "cmp", "comm",
   "md5sum", "sha1sum", "sha256sum", "sha512sum",
   "env", "printenv", "getent", "getconf",
   "xxd", "hexdump", "od", "strings",
   "zcat", "bzcat", "xzcat", "gunzip", "bunzip2", "unxz",
   "jq", "yq", "xmllint",
   "journalctl",
   "lsmod", "modinfo", "lspci", "lsusb",
   "history", "alias",
   "fc-list", "fc-match",
   "test", "true", "false"]

/-- First whitespace-delimited token of a command string, the
command.split_whitespace().next().unwrap_or("") of src/tools.rs. -/
def firstToken (command : String) : String :=
  (((command.split Char.isWhitespace).filter (fun t => t ≠ "")).head?).getD ""

/-- Model of is_read_only (src/tools.rs lines 137-140). -/
def is_read_only (command : String) : Bool :=
  READ_ONLY_COMMANDS.contains (firstToken command)

/-- Serde default for the timeout field (src/tools.rs lines 186-188). -/
def default_timeout : Nat := 30

/-- Outcome of the pre-execution phase of the execute / execute_read tool
handlers: which check fired, or that the handler went on to call
execute_command with the given command and timeout (the first network-I/O
step). -/
inductive ToolOutcome where
  | configMissing
  | validationError (msg : String)
  | notWhitelisted (cmd : String)
  | executed (command : String) (timeout : Nat)
deriving DecidableEq, Repr

/-- Validation message rejected timeouts get (src/tools.rs lines 208-212
and 289-293). -/
def timeoutValidationMsg : String :=
  "Timeout must be between 1 and 300 seconds"

/-- Pre-execution control flow of the execute_read tool handler
(src/tools.rs lines 195-227): missing config check, then timeout
validation, then the read-only whitelist, then execute_command. -/
def execute_read (hasClient : Bool) (command : String) (timeout : Nat) :
    ToolOutcome :=
  if !hasClient then .configMissing
  else if timeout == 0 || timeout > 300 then .validationError timeoutValidationMsg
  else if !(is_read_only command) then .notWhitelisted (firstToken command)
  else .executed command timeout

/-- Pre-execution control flow of the execute tool handler (src/tools.rs
lines 276-299): as execute_read but with no whitelist check. -/
def execute (hasClient : Bool) (command : String) (timeout : Nat) :
    ToolOutcome :=
  if !hasClient then .configMissing
  else if timeout == 0 || timeout > 300 then .validationError timeoutValidationMsg
  else .executed command timeout

/-- Discriminator: does a connect result carry the ConnectionFailed error
kind (the SshConnection variant)? -/
def isConnectionFailedResult : Except SshMcpError Session → Bool
  | .error (.sshConnection _) => true
  | _ => false

/-- A descriptor with neither credential configured, used as concrete
input in several witnesses. -/
def cfgNone : Config := ⟨"192.168.1.100", 8022, "u0_a555", none, none⟩

/-- A descriptor with only a key path configured. -/
def cfgKeyOnly : Config :=
  ⟨"192.168.1.100", 8022, "u0_a555", none, some "~/.ssh/id_ed25519"⟩

/-- A world in which the transport opens but the remote rejects both
authentication methods. -/
def wOpenRejected : AttemptWorld := ⟨.ok (), .rejected, .rejected⟩

/-- A world in which the transport never opens. -/
def wTransportFail : AttemptWorld :=
  ⟨.error "connection refused", .rejected, .rejected⟩

/-- Values carried by the exit-status events of an event list, in order. -/
def exitValues : List ChannelMsg → List Nat
  | [] => []
  | .exitStatus n :: rest => n :: exitValues rest
  | .data _ :: rest => exitValues rest
  | .extendedData _ _ :: rest => exitValues rest
  | .eof :: rest => exitValues rest
  | .otherMsg :: rest => exitValues rest

/-- When the drain loop breaks with events still unconsumed, both an exit
status and an eof have been observed. -/
theorem drainLoop_stop_both (evs : List ChannelMsg) :
    ∀ acc : DrainAcc, (drainLoop evs acc).2 ≠ [] →
      (drainLoop evs acc).1.exit_code.isSome = true ∧
      (drainLoop evs acc).1.got_eof = true := by
  induction evs with
  | nil =>
      intro acc h
      simp [drainLoop] at h
  | cons msg rest ih =>
      intro acc h
      cases msg with
      | data d =>
          simp only [drainLoop] at h ⊢
          exact ih _ h
      | extendedData d ext =>
          by_cases hext : ext = 1 <;>
            (simp [drainLoop, hext] at h ⊢) <;>
            exact ih _ h
      | exitStatus n =>
          cases hg : acc.got_eof <;> simp [drainLoop, hg] at h ⊢
          exact ih _ h
      | eof =>
          cases he : acc.exit_code <;> simp [drainLoop, he] at h ⊢
          exact ih _ h
      | otherMsg =>
          simp only [drainLoop] at h ⊢
          exact ih _ h

/-- An event list with no exit-status event leaves the recorded exit code
unchanged through the drain loop. -/
theorem drainLoop_no_exit (evs : List ChannelMsg) :
    ∀ acc : DrainAcc, exitValues evs = [] →
      (drainLoop evs acc).1.exit_code = acc.exit_code := by
  induction evs with
  | nil =>
      intro acc _
      simp [drainLoop]
  | cons msg rest ih =>
      intro acc hev
      cases msg with
      | data d =>
          simp only [drainLoop]
          exact ih _ (by simpa [exitValues] using hev)
      | extendedData d ext =>
          by_cases hext : ext = 1 <;>
            simp only [drainLoop, hext, if_true, if_false, reduceIte] <;>
            exact ih _ (by simpa [exitValues] using hev)
      | exitStatus n =>
          simp [exitValues] at hev
      | eof =>
          cases he : acc.exit_code with
          | some v => simp [drainLoop, he]
          | none =>
              simp only [drainLoop]
              have h2 : (drainLoop rest
                  { acc with got_eof := true }).1.exit_code = acc.exit_code :=
                ih _ (by simpa [exitValues] using hev)
              simp [he] at h2 ⊢
              exact h2
      | otherMsg =>
          simp only [drainLoop]
          exact ih _ (by simpa [exitValues] using hev)

/-- An event list whose only exit-status event carries n makes the drain
loop finish with recorded exit code the i32 cast of n. -/
theorem drainLoop_single_exit (evs : List ChannelMsg) :
    ∀ acc : DrainAcc, acc.exit_code = none → ∀ n : Nat,
      exitValues evs = [n] →
      (drainLoop evs acc).1.exit_code = some (u32AsI32 n) := by
  induction evs with
  | nil =>
      intro acc _ n hev
      simp [exitValues] at hev
  | cons msg rest ih =>
      intro acc hacc n hev
      cases msg with
      | data d =>
          simp only [drainLoop]
          apply ih
          · exact hacc
          · simpa [exitValues] using hev
      | extendedData d ext =>
          by_cases hext : ext = 1 <;>
            simp only [drainLoop, hext, if_true, if_false, reduceIte] <;>
            (apply ih
             · exact hacc
             · simpa [exitValues] using hev)
      | exitStatus m =>
          obtain ⟨rfl, hrest⟩ : m = n ∧ exitValues rest = [] := by
            simpa [exitValues] using hev
          cases hg : acc.got_eof <;> simp [drainLoop, hg]
          · rw [drainLoop_no_exit rest _ hrest]
      | eof =>
          simp only [drainLoop]
          have he : ¬(({ acc with got_eof := true } : DrainAcc).exit_code.isSome
              = true) := by
            simp [hacc]
          rw [if_neg he]
          apply ih
          · exact hacc
          · simpa [exitValues] using hev
      | otherMsg =>
          simp only [drainLoop]
          apply ih
          · exact hacc
          · simpa [exitValues] using hev

/-- Claim C2, counterexample to the claim as stated: the delivered
exit-status value 2147483648 (two to the 31) does not come back as exit
code 2147483648 — the stored i32 is negative. -/
theorem claim2_counterexample :
    ∃ r, execCommandInner ⟨.ok (), .ok (),
        [ChannelMsg.exitStatus 2147483648, ChannelMsg.eof]⟩ = .ok r
      ∧ r.exit_code ≠ (2147483648 : Int) := by
  have h : execCommandInner ⟨.ok (), .ok (),
      [ChannelMsg.exitStatus 2147483648, ChannelMsg.eof]⟩
      = .ok ⟨[], [], u32AsI32 2147483648⟩ := by
    simp [execCommandInner, drainLoop]
  refine ⟨⟨[], [], u32AsI32 2147483648⟩, h, ?_⟩
  show u32AsI32 2147483648 ≠ (2147483648 : Int)
  norm_num [u32AsI32]

/-- Claim C2 (amended): for every sequence of channel events, the drain
loop stops consuming events early only once both an exit-status event and
an end-of-stream event have been observed (otherwise it consumes the whole
stream); and when the single exit-status event of the stream delivers
value n, the returned CommandResult exit code is n reinterpreted as a
signed 32-bit integer (equal to n for every n below two to the 31, e.g.
127). -/
theorem claim2_amended (w : ExecWorld) (n : Nat)
    (hopen : w.channel_open = .ok ()) (hexec : w.exec_req = .ok ())
    (hn : exitValues w.events = [n]) :
    ((drainLoop w.events ⟨[], [], none, false⟩).2 ≠ [] →
        (drainLoop w.events ⟨[], [], none, false⟩).1.exit_code.isSome = true ∧
        (drainLoop w.events ⟨[], [], none, false⟩).1.got_eof = true)
    ∧ (∃ r, execCommandInner w = .ok r ∧ r.exit_code = u32AsI32 n) := by
  constructor
  · exact drainLoop_stop_both w.events _
  · have hd := drainLoop_single_exit w.events ⟨[], [], none, false⟩ rfl n hn
    refine ⟨⟨(drainLoop w.events ⟨[], [], none, false⟩).1.stdout,
            (drainLoop w.events ⟨[], [], none, false⟩).1.stderr,
            u32AsI32 n⟩, ?_, rfl⟩
    simp [execCommandInner, hopen, hexec, hd]

/-- Claim C2 witness: a concrete run delivering exit status 127 before eof
is drained to the end and reports exit code 127. -/
theorem claim2_witness :
    ((drainLoop [ChannelMsg.exitStatus 127, ChannelMsg.eof]
        ⟨[], [], none, false⟩).2 ≠ [] →
        (drainLoop [ChannelMsg.exitStatus 127, ChannelMsg.eof]
          ⟨[], [], none, false⟩).1.exit_code.isSome = true ∧
        (drainLoop [ChannelMsg.exitStatus 127, ChannelMsg.eof]
          ⟨[], [], none, false⟩).1.got_eof = true)
    ∧ (∃ r, execCommandInner ⟨.ok (), .ok (),
        [ChannelMsg.exitStatus 127, ChannelMsg.eof]⟩ = .ok r
        ∧ r.exit_code = u32AsI32 127) :=
  claim2_amended ⟨.ok (), .ok (), [ChannelMsg.exitStatus 127, ChannelMsg.eof]⟩
    127 rfl rfl (by decide)

/-- Claim C3: a channel event sequence that ends without ever delivering an
exit-status event still yields a successful CommandResult with exit code 0. -/
theorem claim3 (w : ExecWorld)
    (hopen : w.channel_open = .ok ()) (hexec : w.exec_req = .ok ())
    (hn : exitValues w.events = []) :
    ∃ r, execCommandInner w = .ok r ∧ r.exit_code = 0 := by
  have hd := drainLoop_no_exit w.events ⟨[], [], none, false⟩ hn
  refine ⟨⟨(drainLoop w.events ⟨[], [], none, false⟩).1.stdout,
          (drainLoop w.events ⟨[], [], none, false⟩).1.stderr, 0⟩, ?_, rfl⟩
  simp [execCommandInner, hopen, hexec, hd]

/-- Claim C3 witness: a concrete run with output data and eof but no
exit-status event succeeds with exit code 0. -/
theorem claim3_witness :
    ∃ r, execCommandInner ⟨.ok (), .ok (),
        [ChannelMsg.data [104, 105], ChannelMsg.eof]⟩ = .ok r
      ∧ r.exit_code = 0 :=
  claim3 ⟨.ok (), .ok (), [ChannelMsg.data [104, 105], ChannelMsg.eof]⟩
    rfl rfl (by decide)

/-- Claim C10: the exit code stored in CommandResult is the remote's 32-bit
unsigned exit-status value reinterpreted as a signed 32-bit integer, so a
delivered value of two to the 31 or greater is reported negative, as the
value minus two to the 32. -/
theorem claim10 (n : Nat) (hlt : n < 2 ^ 32) :
    ∃ r, execCommandInner ⟨.ok (), .ok (),
        [ChannelMsg.exitStatus n, ChannelMsg.eof]⟩ = .ok r
      ∧ r.exit_code = u32AsI32 n
      ∧ (2 ^ 31 ≤ n → r.exit_code = (n : Int) - 2 ^ 32 ∧ r.exit_code < 0) := by
  refine ⟨⟨[], [], u32AsI32 n⟩, ?_, rfl, ?_⟩
  · simp [execCommandInner, drainLoop]
  · intro hge
    have hmod : n % 2 ^ 32 = n := Nat.mod_eq_of_lt hlt
    have h1 : u32AsI32 n = (n : Int) - 2 ^ 32 := by
      simp only [u32AsI32, hmod]
      rw [if_neg (by omega)]
    have h2 : (n : Int) < 2 ^ 32 := by exact_mod_cast hlt
    refine ⟨h1, ?_⟩
    show u32AsI32 n < 0
    rw [h1]
    omega

/-- Claim C10 witness: delivered exit status two to the 31 comes back as
the negative exit code minus two to the 31. -/
theorem claim10_witness :
    (2147483648 : Nat) < 2 ^ 32 ∧
    (∃ r, execCommandInner ⟨.ok (), .ok (),
        [ChannelMsg.exitStatus 2147483648, ChannelMsg.eof]⟩ = .ok r
      ∧ r.exit_code = u32AsI32 2147483648
      ∧ (2 ^ 31 ≤ 2147483648 → r.exit_code = ((2147483648 : Nat) : Int) - 2 ^ 32
          ∧ r.exit_code < 0)) :=
  ⟨by norm_num, claim10 2147483648 (by norm_num)⟩

/-- Unrolled form of the connect retry loop: with MAX_RETRIES = 3 the run
is decided by the outcomes of the three attempts. -/
theorem connect_eq (c : Config) (w : Nat → AttemptWorld) :
    connect c w =
      match (tryConnect c (w 1)).1 with
      | .ok s => (.ok s, 1, [])
      | .error _ =>
        match (tryConnect c (w 2)).1 with
        | .ok s => (.ok s, 2, [RETRY_DELAY])
        | .error _ =>
          match (tryConnect c (w 3)).1 with
          | .ok s => (.ok s, 3, [RETRY_DELAY, RETRY_DELAY])
          | .error e3 => (.error e3, 3, [RETRY_DELAY, RETRY_DELAY]) := by
  show connectGo c w [1, 2, 3] none = _
  rcases h1 : (tryConnect c (w 1)).1 with e1 | s1 <;>
    rcases h2 : (tryConnect c (w 2)).1 with e2 | s2 <;>
    rcases h3 : (tryConnect c (w 3)).1 with e3 | s3 <;>
    simp [connectGo, h1, h2, h3, MAX_RETRIES, RETRY_DELAY]

/-- Claim C6: connect makes at most 3 attempts, every sleep it performs is
exactly 2 seconds, and the number of sleeps is one less than the number of
attempts (so no sleep follows the final attempt). -/
theorem claim6 (c : Config) (w : Nat → AttemptWorld) :
    (connect c w).2.1 ≤ MAX_RETRIES
    ∧ (∀ d ∈ (connect c w).2.2, d = RETRY_DELAY)
    ∧ (connect c w).2.2.length = (connect c w).2.1 - 1 := by
  rcases h1 : (tryConnect c (w 1)).1 with e1 | s1 <;>
    rcases h2 : (tryConnect c (w 2)).1 with e2 | s2 <;>
    rcases h3 : (tryConnect c (w 3)).1 with e3 | s3 <;>
    simp [connect_eq, h1, h2, h3, MAX_RETRIES, RETRY_DELAY]

/-- Claim C6 witness: on a concrete always-failing world connect makes 3
attempts and 2 sleeps. -/
theorem claim6_witness :
    (connect cfgNone (fun _ => wTransportFail)).2.1 ≤ MAX_RETRIES
    ∧ (connect cfgNone (fun _ => wTransportFail)).2.2.length
        = (connect cfgNone (fun _ => wTransportFail)).2.1 - 1 :=
  ⟨(claim6 cfgNone (fun _ => wTransportFail)).1,
   (claim6 cfgNone (fun _ => wTransportFail)).2.2⟩

/-- Claim C1, counterexample to the claim as stated: with neither key nor
password configured and the transport opening fine, connect does fail with
an Authentication error, but only after 3 attempts and 2 inter-attempt
sleeps — the claimed absence of retries and sleeps is false. -/
theorem claim1_counterexample :
    (connect cfgNone (fun _ => wOpenRejected)).2.1 = 3
    ∧ (connect cfgNone (fun _ => wOpenRejected)).2.2 = [RETRY_DELAY, RETRY_DELAY]
    ∧ (connect cfgNone (fun _ => wOpenRejected)).1
        = .error (.authentication noAuthMethodMsg) :=
  ⟨rfl, rfl, rfl⟩

/-- Claim C1 (amended): with neither key nor password configured, connect
fails with the AuthenticationFailed no-method error, but the failure is
retried like any other: all 3 attempts run (each opening the transport)
with a 2-second sleep between consecutive attempts. -/
theorem claim1_amended (c : Config) (w : Nat → AttemptWorld)
    (hk : c.key_path = none) (hp : c.password = none)
    (ht : ∀ i, (w i).transport = Except.ok ()) :
    (connect c w).1 = .error (.authentication noAuthMethodMsg)
    ∧ (connect c w).2.1 = MAX_RETRIES
    ∧ (connect c w).2.2 = [RETRY_DELAY, RETRY_DELAY] := by
  have htc : ∀ i, (tryConnect c (w i)).1
      = .error (.authentication noAuthMethodMsg) := by
    intro i
    simp [tryConnect, ht i, Config.expanded_key_path, hk, hp]
  simp [connect_eq, htc 1, htc 2, htc 3, MAX_RETRIES, RETRY_DELAY]

/-- Claim C1 witness: the amended behavior at a concrete credential-free
descriptor. -/
theorem claim1_witness :
    (connect cfgNone (fun _ => wOpenRejected)).1
        = .error (.authentication noAuthMethodMsg)
    ∧ (connect cfgNone (fun _ => wOpenRejected)).2.1 = MAX_RETRIES
    ∧ (connect cfgNone (fun _ => wOpenRejected)).2.2
        = [RETRY_DELAY, RETRY_DELAY] :=
  claim1_amended cfgNone (fun _ => wOpenRejected) rfl rfl (fun _ => rfl)

/-- Claim C5, counterexample to the claim as stated: a run whose attempts
all fail at authentication exhausts its attempts, yet connect returns an
AuthenticationFailed error, not a ConnectionFailed one. -/
theorem claim5_counterexample :
    (connect cfgKeyOnly (fun _ => wOpenRejected)).1
        = .error (.authentication (keyFailNoPwMsg cfgKeyOnly "~/.ssh/id_ed25519"))
    ∧ isConnectionFailedResult (connect cfgKeyOnly (fun _ => wOpenRejected)).1
        = false :=
  ⟨rfl, rfl⟩

/-- Claim C5 (amended): when connect exhausts all attempts, it returns
exactly the error recorded from the last failed attempt (a ConnectionFailed
error carrying the underlying cause whenever the last attempt failed at
transport open, an AuthenticationFailed error when it failed at
authentication); the generic fallback cause exists in the code but at
least one attempt always records an error first. -/
theorem claim5_amended (c : Config) (w : Nat → AttemptWorld) (e : SshMcpError)
    (h : (connect c w).1 = .error e) :
    (tryConnect c (w 3)).1 = .error e
    ∧ (∀ m, (w 3).transport = .error m →
        e = .sshConnection (connectFailMsg c m)) := by
  rw [connect_eq] at h
  rcases h1 : (tryConnect c (w 1)).1 with e1 | s1 <;>
    rcases h2 : (tryConnect c (w 2)).1 with e2 | s2 <;>
    rcases h3 : (tryConnect c (w 3)).1 with e3 | s3 <;>
    simp [h1, h2, h3] at h
  subst h
  refine ⟨rfl, ?_⟩
  intro m hm
  have key : (tryConnect c (w 3)).1
      = .error (.sshConnection (connectFailMsg c m)) := by
    simp [tryConnect, hm]
  rw [h3] at key
  injection key

/-- Claim C5 witness: with every attempt failing to open the transport,
connect returns the ConnectionFailed error of the last attempt, carrying
the underlying cause. -/
theorem claim5_witness :
    (tryConnect cfgNone wTransportFail).1
        = .error (.sshConnection (connectFailMsg cfgNone "connection refused"))
    ∧ (∀ m, wTransportFail.transport = .error m →
        SshMcpError.sshConnection (connectFailMsg cfgNone "connection refused")
          = .sshConnection (connectFailMsg cfgNone m)) :=
  claim5_amended cfgNone (fun _ => wTransportFail)
    (.sshConnection (connectFailMsg cfgNone "connection refused")) rfl

/-- Claim C4: with a key path configured, when key authentication does not
succeed (unreadable, unparsable, or rejected), a configured password is
tried next; with no password configured the attempt fails terminally with
an AuthenticationFailed error whose message names key authentication. -/
theorem claim4 (c : Config) (w : AttemptWorld) (kp : String)
    (hk : c.key_path = some kp) (ht : w.transport = Except.ok ())
    (hfail : w.key_auth ≠ KeyAuthOutcome.accepted) :
    (c.password.isSome = true → (tryConnect c w).2.pw_tried = true)
    ∧ (c.password = none →
        ∃ m, (tryConnect c w).1 = .error (.authentication m)
          ∧ ∃ pre post, m = pre ++ "Key authentication" ++ post) := by
  constructor
  · intro hps
    obtain ⟨p, hp⟩ := Option.isSome_iff_exists.mp hps
    cases hka : w.key_auth <;>
      first
        | exact absurd hka hfail
        | cases hpw : w.pw_auth <;>
            simp [tryConnect, Config.expanded_key_path, tryKeyAuth,
              tryPasswordAuth, ht, hk, hp, hka, hpw]
  · intro hp
    cases hka : w.key_auth with
    | accepted => exact absurd hka hfail
    | ioError m =>
        refine ⟨keyErrNoPwMsg c (SshMcpError.io m).display kp, ?_,
          keyAuthMsgPre c,
          " error: " ++ (SshMcpError.io m).display ++ keyAuthMsgPost c kp,
          rfl⟩
        simp [tryConnect, Config.expanded_key_path, tryKeyAuth, ht, hk, hp,
          hka, keyErrNoPwMsg]
    | decodeError m =>
        refine ⟨keyErrNoPwMsg c
            (SshMcpError.authentication ("Failed to load key: " ++ m)).display
            kp, ?_,
          keyAuthMsgPre c,
          " error: "
            ++ (SshMcpError.authentication
                ("Failed to load key: " ++ m)).display
            ++ keyAuthMsgPost c kp,
          rfl⟩
        simp [tryConnect, Config.expanded_key_path, tryKeyAuth, ht, hk, hp,
          hka, keyErrNoPwMsg]
    | sshError m =>
        refine ⟨keyErrNoPwMsg c
            (SshMcpError.authentication ("Key auth failed: " ++ m)).display
            kp, ?_,
          keyAuthMsgPre c,
          " error: "
            ++ (SshMcpError.authentication ("Key auth failed: " ++ m)).display
            ++ keyAuthMsgPost c kp,
          rfl⟩
        simp [tryConnect, Config.expanded_key_path, tryKeyAuth, ht, hk, hp,
          hka, keyErrNoPwMsg]
    | rejected =>
        refine ⟨keyFailNoPwMsg c kp, ?_,
          keyAuthMsgPre c,
          " failed and no password provided." ++ keyAuthMsgPost c kp,
          rfl⟩
        simp [tryConnect, Config.expanded_key_path, tryKeyAuth, ht, hk, hp,
          hka, keyFailNoPwMsg]

/-- Claim C4 witness: a concrete key-only descriptor whose key the remote
rejects fails with an Authentication error naming key authentication. -/
theorem claim4_witness :
    (cfgKeyOnly.password.isSome = true →
        (tryConnect cfgKeyOnly wOpenRejected).2.pw_tried = true)
    ∧ (cfgKeyOnly.password = none →
        ∃ m, (tryConnect cfgKeyOnly wOpenRejected).1
            = .error (.authentication m)
          ∧ ∃ pre post, m = pre ++ "Key authentication" ++ post) :=
  claim4 cfgKeyOnly wOpenRejected "~/.ssh/id_ed25519" rfl rfl (by decide)

/-- Claim C7: ensure_connected makes no connect call when the held session
reports itself open (and keeps the same handle), makes exactly one connect
call when the held session reports itself closed, and makes exactly one
connect call when no session is held. -/
theorem claim7 (session : Option Session) (c : Config)
    (w : Nat → AttemptWorld) :
    (∀ s, session = some s → s.closed = false →
        ensureConnected session c w = (.ok (), some s, 0))
    ∧ (∀ s, session = some s → s.closed = true →
        (ensureConnected session c w).2.2 = 1)
    ∧ (session = none → (ensureConnected session c w).2.2 = 1) := by
  refine ⟨?_, ?_, ?_⟩
  · rintro s rfl hs
    simp [ensureConnected, hs]
  · rintro s rfl hs
    rcases h : (connect c w).1 with e | s2 <;> simp [ensureConnected, hs, h]
  · rintro rfl
    rcases h : (connect c w).1 with e | s2 <;> simp [ensureConnected, h]

/-- Claim C7 witness: an open held session is reused with no connect call;
an absent session triggers exactly one connect call. -/
theorem claim7_witness :
    ensureConnected (some ⟨false⟩) cfgNone (fun _ => wOpenRejected)
        = (.ok (), some ⟨false⟩, 0)
    ∧ (ensureConnected none cfgNone (fun _ => wOpenRejected)).2.2 = 1 :=
  ⟨(claim7 (some ⟨false⟩) cfgNone (fun _ => wOpenRejected)).1 ⟨false⟩ rfl rfl,
   (claim7 none cfgNone (fun _ => wOpenRejected)).2.2 rfl⟩

/-- Claim C8: a command whose drain needs longer than timeout_secs fails
with a Timeout error whose message carries the configured duration, and
never returns a CommandResult. -/
theorem claim8 (s : Session) (c : Config) (w : Nat → AttemptWorld)
    (ew : ExecWorld) (drain_time timeout_secs : Nat)
    (hs : s.closed = false) (h : timeout_secs < drain_time) :
    executeCommand (some s) c w ew drain_time timeout_secs
        = .error (.timeout (timeoutMsg timeout_secs))
    ∧ (∃ pre post,
        timeoutMsg timeout_secs = pre ++ toString timeout_secs ++ post)
    ∧ (∀ r, executeCommand (some s) c w ew drain_time timeout_secs
        ≠ .ok r) := by
  have h1 : executeCommand (some s) c w ew drain_time timeout_secs
      = .error (.timeout (timeoutMsg timeout_secs)) := by
    simp [executeCommand, ensureConnected, hs, h]
  refine ⟨h1, ⟨"Command timed out after ", " seconds", rfl⟩, ?_⟩
  intro r hr
  rw [h1] at hr
  exact Except.noConfusion hr

/-- Claim C8 witness: a 1-second deadline against a drain needing 5
seconds yields the Timeout error naming 1 second. -/
theorem claim8_witness :
    executeCommand (some ⟨false⟩) cfgNone (fun _ => wOpenRejected)
        ⟨.ok (), .ok (), []⟩ 5 1 = .error (.timeout (timeoutMsg 1))
    ∧ (∃ pre post, timeoutMsg 1 = pre ++ toString 1 ++ post)
    ∧ (∀ r, executeCommand (some ⟨false⟩) cfgNone (fun _ => wOpenRejected)
        ⟨.ok (), .ok (), []⟩ 5 1 ≠ .ok r) :=
  claim8 ⟨false⟩ cfgNone (fun _ => wOpenRejected) ⟨.ok (), .ok (), []⟩ 5 1
    rfl (by norm_num)

/-- Claim C9: both tool handlers reject a timeout of 0 or above 300 with
the validation error before reaching execute_command, never clamping it;
an in-range timeout is passed through unchanged; the serde default used
when the field is omitted is 30. -/
theorem claim9 (command : String) (t : Nat) :
    (t = 0 ∨ 300 < t →
        execute_read true command t = .validationError timeoutValidationMsg
        ∧ execute true command t = .validationError timeoutValidationMsg)
    ∧ (1 ≤ t → t ≤ 300 → execute true command t = .executed command t)
    ∧ (1 ≤ t → t ≤ 300 →
        ∀ m, execute_read true command t ≠ .validationError m)
    ∧ default_timeout = 30 := by
  refine ⟨?_, ?_, ?_, rfl⟩
  · intro hout
    have hc : (t == 0 || decide (t > 300)) = true := by
      rcases hout with rfl | hgt
      · simp
      · simp
        omega
    constructor <;> simp [execute_read, execute, hc]
  · intro h1 h300
    have hc : (t == 0 || decide (t > 300)) = false := by
      simp
      omega
    simp [execute, hc]
  · intro h1 h300 m
    have hc : (t == 0 || decide (t > 300)) = false := by
      simp
      omega
    by_cases hro : is_read_only command <;> simp [execute_read, hc, hro]

/-- Claim C9 witness: timeout 301 is rejected with the validation message,
timeout 30 is passed through unclamped, and the default is 30. -/
theorem claim9_witness :
    execute true "ls" 301 = .validationError timeoutValidationMsg
    ∧ execute true "ls" 30 = .executed "ls" 30
    ∧ default_timeout = 30 :=
  ⟨((claim9 "ls" 301).1 (Or.inr (by norm_num))).2,
   (claim9 "ls" 30).2.1 (by norm_num) (by norm_num),
   (claim9 "ls" 30).2.2.2⟩

end McpAndroidSsh
